import Mathlib

/-!
Verification of the cart/checkout/admin logic of the `sonhos-de-croche-loja`
storefront (`src/app.py`), shallowly embedded in Lean.

Conventions of the embedding:
* Python `Decimal` currency values (`Numeric(10, 2)`, always two decimal
  places) are represented as integer numbers of cents (`Int`).
* `Decimal.quantize(Decimal("0.01"))` with Python's default context rounds
  half-to-even (banker's rounding); it is modelled by `roundHalfEven`.
* The per-visitor session cart is the association list it is in the code: a
  mapping from product-id *strings* to integer quantities, in insertion
  order, exactly like the Python `dict` stored in the session.
* Handlers that can `abort`, raise, or redirect with a flash message are
  modelled as `Except`-valued functions; an `.error` result persists
  nothing and leaves every piece of state unchanged, mirroring the code
  paths that return before `db.session.commit()`.
-/

/-- Rounding of the rational `n / d` (with `d > 0`) to the nearest integer,
ties to the even neighbour: the rounding performed by Python `Decimal`'s
default context (`ROUND_HALF_EVEN`), as used by every `quantize` call in
`src/app.py`. -/
def roundHalfEven (n d : Int) : Int :=
  if 2 * (n % d) < d then n / d
  else if d < 2 * (n % d) then n / d + 1
  else if (n / d) % 2 = 0 then n / d else n / d + 1

/-- Rounding of `n / d` (with `d > 0`) to the nearest integer, ties away
from zero (`ROUND_HALF_UP` in Python `Decimal` terms). The code never uses
this mode; it is here only so the spec's words can be stated and compared
against the implementation. -/
def roundHalfUp (n d : Int) : Int :=
  if 2 * (n % d) < d then n / d
  else if d < 2 * (n % d) then n / d + 1
  else if 0 ≤ n then n / d + 1 else n / d

/-- `quantize(Decimal("0.01"))` applied to a value that is already an exact
number of cents (`n` cents): rounding an integer to an integer. In
`cart_view`/`checkout`/`create_order` the quantized value is
`product.price * qty_i`, the product of a two-decimal-place price and an
integer quantity, which is always an exact number of cents, so the
denominator is 1. -/
def quantizeCents (n : Int) : Int := roundHalfEven n 1

/-- `price_with_pix_discount` from `src/app.py` (lines 123-128), with the
process-wide configuration value `app.config["PIX_DISCOUNT_PERCENT"]`
passed explicitly as `pct`. `price` is in cents. If `pct ≤ 0` the price is
returned unchanged; otherwise the price is multiplied by
`(100 - pct) / 100` and quantized to the cent, i.e. the exact product
`price * (100 - pct)` (in hundredths of a cent) is rounded half-to-even at
denominator 100. -/
def price_with_pix_discount (price : Int) (pct : Int) : Int :=
  if pct ≤ 0 then price
  else roundHalfEven (price * (100 - pct)) 100

/-- Modelled from the spec (§4.2): the discount function *as the spec
words it*, "multiplies by `(100 − percent)/100` and rounds to 2 decimals
(half-up)". Stated only to be compared with `price_with_pix_discount`,
which is what the code actually computes. -/
def price_with_discount_spec (price : Int) (pct : Int) : Int :=
  if pct ≤ 0 then price
  else roundHalfUp (price * (100 - pct)) 100

theorem quantizeCents_id (n : Int) : quantizeCents n = n := by
  unfold quantizeCents roundHalfEven
  omega

theorem roundHalfEven_100_le {n m : Int} (h : n ≤ 100 * m) :
    roundHalfEven n 100 ≤ m := by
  unfold roundHalfEven
  omega

example : roundHalfEven 1250 100 = 12 := by decide
example : roundHalfUp 1250 100 = 13 := by decide
example : price_with_pix_discount 24000 10 = 21600 := by decide
example : price_with_pix_discount 1 1 = 1 := by decide

/-- A row of the `product` table; `price` is in cents (the column is
`Numeric(10, 2)`). -/
structure Product where
  id : Nat
  name : String
  description : String
  price : Int
  is_active : Bool
deriving Repr, DecidableEq

/-- Whitespace as recognised by Python's `str.strip()` / `int()`
(restricted to the ASCII whitespace characters). -/
def pyIsSpace (ch : Char) : Bool :=
  ch == ' ' || ch == '\t' || ch == '\n' || ch == '\r' || ch == '\x0b' || ch == '\x0c'

/-- Python `str.strip()` on the character list of a string. -/
def pyStripList (l : List Char) : List Char :=
  ((l.dropWhile pyIsSpace).reverse.dropWhile pyIsSpace).reverse

/-- Python `str.strip()`. -/
def pyStrip (s : String) : String := ⟨pyStripList s.data⟩

/-- Numeric value of an ASCII digit character. -/
def digitVal (ch : Char) : Nat := ch.toNat - 48

/-- Value of a non-empty ASCII digit string. -/
def digitsToNat (l : List Char) : Nat :=
  l.foldl (fun a ch => a * 10 + digitVal ch) 0

/-- Python's `int(s)` applied to a form/string value, restricted to ASCII
decimal literals: surrounding whitespace is stripped, an optional sign and
a non-empty digit string are accepted, anything else raises `ValueError`,
modelled as `none`. -/
def python_int (s : String) : Option Int :=
  match pyStripList s.data with
  | '-' :: rest =>
    if rest ≠ [] ∧ rest.all Char.isDigit then some (-(digitsToNat rest : Int)) else none
  | '+' :: rest =>
    if rest ≠ [] ∧ rest.all Char.isDigit then some ((digitsToNat rest : Int)) else none
  | l =>
    if l ≠ [] ∧ l.all Char.isDigit then some ((digitsToNat l : Int)) else none

/-- Replacement of every non-overlapping occurrence of `pat` (non-empty in
all the uses the code makes) by `rep`, left to right, as Python
`str.replace`; `fuel` is instantiated with the length of the subject so
the recursion is structural. -/
def replaceFuel (pat rep : List Char) : Nat → List Char → List Char
  | _, [] => []
  | 0, l => l
  | fuel + 1, ch :: rest =>
    if pat.isPrefixOf (ch :: rest) then
      rep ++ replaceFuel pat rep fuel ((ch :: rest).drop pat.length)
    else ch :: replaceFuel pat rep fuel rest

/-- Python `str.replace(pat, rep)` for a non-empty pattern. -/
def pyReplace (s pat rep : String) : String :=
  ⟨replaceFuel pat.data rep.data s.data.length s.data⟩

/-- ASCII lower-casing of one character, as `str.lower()` does on the
ASCII filenames and extensions the code compares. -/
def lowerChar (ch : Char) : Char :=
  if ch.isUpper then Char.ofNat (ch.toNat + 32) else ch

/-- Python `str.lower()` (ASCII fragment). -/
def pyLower (s : String) : String := ⟨s.data.map lowerChar⟩

/-- Python `"." in s` for a single-character needle. -/
def containsChar (s : String) (ch : Char) : Bool :=
  s.data.any (fun c => c == ch)

/-- Python `str(n)` for the non-negative ints used as cart keys; `fuel` is
`n + 1`, enough for the division chain, keeping the recursion structural. -/
def natToDigits (fuel n : Nat) : List Char :=
  match fuel with
  | 0 => []
  | fuel + 1 =>
    if n < 10 then [Char.ofNat (48 + n)]
    else natToDigits fuel (n / 10) ++ [Char.ofNat (48 + n % 10)]

/-- Python `str(n)` for a non-negative int. -/
def natToString (n : Nat) : String := ⟨natToDigits (n + 1) n⟩

/-- Python's `x or default` on an optional string form field: `None` and
the empty string are falsy and give the default. -/
def pyOr (o : Option String) (d : String) : String :=
  match o with
  | none => d
  | some s => if s = "" then d else s

/-- The session cart: the Python dict `session["cart"]`, a mapping from
product-id strings to integer quantities, kept in insertion order. -/
def Cart := List (String × Int)

/-- `Product.query.get(n)` against an in-memory catalog: the first product
whose primary key equals `n` (`n : Int` because the id reaches the query
through Python `int(pid_str)`, which can be negative). -/
def getProduct (catalog : List Product) (n : Int) : Option Product :=
  catalog.find? (fun p => (p.id : Int) == n)

/-- The `int(pid_str)` conversions performed while iterating the cart in
`cart_view`/`checkout`/`create_order`: `none` when some stored key is not
an integer literal, in which case the Python loop raises before producing
any total. -/
def parse_cart (c : List (String × Int)) : Option (List (Int × Int)) :=
  c.mapM (fun e => (python_int e.1).map (fun n => (n, e.2)))

/-- The `if not product or not product.is_active: continue` filtering of
the cart loops: resolve each parsed cart entry against the catalog and
silently drop entries whose product is missing or inactive. -/
def surviving (catalog : List Product) (pc : List (Int × Int)) :
    List (Product × Int) :=
  pc.filterMap (fun e =>
    match getProduct catalog e.1 with
    | none => none
    | some p => if p.is_active then some (p, e.2) else none)

/-- The running `total += subtotal` of the cart loops, where each
`subtotal = (product.price * qty_i).quantize(Decimal("0.01"))`. -/
def lines_total (ls : List (Product × Int)) : Int :=
  ls.foldl (fun acc e => acc + quantizeCents (e.1.price * e.2)) 0

/-- The total rendered by the `cart_view` handler (lines 189-202): `none`
when `int(pid_str)` raises on a stored cart key. -/
def cart_view_total (catalog : List Product) (c : List (String × Int)) :
    Option Int :=
  (parse_cart c).map (fun pc => lines_total (surviving catalog pc))

/-- `c.get(k)` on the session dict. -/
def assocLookup (c : List (String × Int)) (k : String) : Option Int :=
  match c with
  | [] => none
  | e :: rest => if e.1 = k then some e.2 else assocLookup rest k

/-- Assignment `c[k] = v` on the session dict: overwrite in place when
the key is present, append otherwise. -/
def assocSet (c : List (String × Int)) (k : String) (v : Int) :
    List (String × Int) :=
  if c.any (fun e => decide (e.1 = k)) then
    c.map (fun e => if e.1 = k then (k, v) else e)
  else c ++ [(k, v)]

/-- `c.pop(k, None)` on the session dict: drop the key if present. -/
def assocRemove (c : List (String × Int)) (k : String) :
    List (String × Int) :=
  c.filter (fun e => !decide (e.1 = k))

/-- Failure modes of the `cart_add` handler: `notFound` is the 404 from
`get_or_404`/the inactive check, `qtyError` is the uncaught `ValueError`
from `int(...)` on a non-empty, non-integer `qty` form value. -/
inductive CartAddFail where
  | notFound
  | qtyError
deriving Repr, DecidableEq

/-- The `cart_add` handler (lines 204-216): look up the product (404 when
missing or inactive), parse `request.form.get("qty", "1") or "1"`, clamp
the parsed value with `max(1, min(qty, 99))`, and add it onto the existing
quantity for that product id; the sum is stored without further clamping. -/
def cart_add (catalog : List Product) (c : List (String × Int)) (product_id : Nat)
    (qty_field : Option String) : Except CartAddFail (List (String × Int)) :=
  match getProduct catalog (product_id : Int) with
  | none => .error .notFound
  | some p =>
    if !p.is_active then .error .notFound
    else
      let s := pyOr qty_field "1"
      match python_int s with
      | none => .error .qtyError
      | some qty =>
        let qty := max 1 (min qty 99)
        let key := natToString product_id
        .ok (assocSet c key (((assocLookup c key).getD 0) + qty))

/-- The `cart_update` handler (lines 218-235): fold over the submitted
form fields; a field `qty_<pid>` (the pid is recovered with
`key.replace("qty_", "")`) whose value fails `int(...)` is treated as 1;
a non-positive parsed value pops the line; otherwise the value is clamped
to [1, 99] and stored. -/
def cart_update (c : List (String × Int)) (form : List (String × String)) :
    List (String × Int) :=
  form.foldl (fun acc kv =>
    if !("qty_".data.isPrefixOf kv.1.data) then acc
    else
      let pid := pyReplace kv.1 "qty_" ""
      let q := (python_int kv.2).getD 1
      if q ≤ 0 then assocRemove acc pid
      else assocSet acc pid (max 1 (min q 99))) c

/-- Decidable equality on `Except` results, so that concrete handler runs
can be checked by `decide`. -/
instance exceptDecEq {ε α : Type} [DecidableEq ε] [DecidableEq α] :
    DecidableEq (Except ε α) := fun a b =>
  match a, b with
  | .error x, .error y =>
    if h : x = y then .isTrue (congrArg Except.error h)
    else .isFalse (fun hh => h (Except.error.inj hh))
  | .error _, .ok _ => .isFalse (fun hh => Except.noConfusion hh)
  | .ok _, .error _ => .isFalse (fun hh => Except.noConfusion hh)
  | .ok x, .ok y =>
    if h : x = y then .isTrue (congrArg Except.ok h)
    else .isFalse (fun hh => h (Except.ok.inj hh))

/-- A row of the `order_item` table: the snapshot of a product taken at
order time. -/
structure OrderItemRec where
  product_id : Nat
  product_name_snapshot : String
  unit_price : Int
  qty : Int
deriving Repr, DecidableEq

/-- A row of the `order` table together with its items; `amount` and
`amount_original` are in cents. -/
structure OrderRec where
  customer_name : String
  whatsapp : String
  city_state : String
  address : String
  notes : String
  payment_method : String
  amount : Int
  amount_original : Int
  status : String
  items : List OrderItemRec
deriving Repr, DecidableEq

/-- Early exits of the `create_order` handler: `emptyCart` is the
"Carrinho vazio." flash-and-redirect (taken both when the raw session cart
is empty and when every line is stale/inactive), `missingFields` the
"Informe seu nome e WhatsApp" one, and `typeError` the uncaught exception
from `int(pid_str)` on a non-integer stored cart key. In every error case
the handler returns before `db.session.add`/`commit`, so no Order or
OrderItem row is written and the session cart is left unchanged. -/
inductive CheckoutError where
  | emptyCart
  | missingFields
  | typeError
deriving Repr, DecidableEq

/-- The `create_order` handler (lines 272-337): reject an empty session
cart; normalise the payment method to `"pix"` unless it is `"pix"` or
`"card"`; strip the customer fields and reject a blank name or WhatsApp;
recompute the surviving lines and their total from current catalog prices;
reject when no line survives; set `amount_original` to the total and
`amount` to the pix-discounted total exactly when the payment method is
`"pix"`; and persist one item per surviving line snapshotting the
product's current name and price. On success the session cart is cleared. -/
def create_order (pct : Int) (catalog : List Product) (c : List (String × Int))
    (payment_method_field customer_name_field whatsapp_field
     city_state_field address_field notes_field : Option String) :
    Except CheckoutError OrderRec :=
  if c.isEmpty then .error .emptyCart
  else
    let pm0 := payment_method_field.getD "pix"
    let pm := if pm0 = "pix" ∨ pm0 = "card" then pm0 else "pix"
    let customer_name := pyStrip (pyOr customer_name_field "")
    let whatsapp := pyStrip (pyOr whatsapp_field "")
    let city_state := pyStrip (pyOr city_state_field "")
    let address := pyStrip (pyOr address_field "")
    let notes := pyStrip (pyOr notes_field "")
    if customer_name = "" ∨ whatsapp = "" then .error .missingFields
    else
      match parse_cart c with
      | none => .error .typeError
      | some pc =>
        let lines := surviving catalog pc
        if lines.isEmpty then .error .emptyCart
        else
          let total := lines_total lines
          let total_pix := price_with_pix_discount total pct
          let amount := if pm = "pix" then total_pix else total
          .ok {
            customer_name := customer_name
            whatsapp := whatsapp
            city_state := city_state
            address := address
            notes := notes
            payment_method := pm
            amount := amount
            amount_original := total
            status := "Aguardando pagamento"
            items := lines.map (fun e => {
              product_id := e.1.id
              product_name_snapshot := e.1.name
              unit_price := e.1.price
              qty := e.2 }) }

/-- Sum of `unit_price * qty` over the items of an order. -/
def itemsSum (items : List OrderItemRec) : Int :=
  (items.map (fun it => it.unit_price * it.qty)).sum

/-- `allowed_file` from `src/app.py` (lines 94-95): the filename must
contain a dot and the part after the last dot, lower-cased, must be one of
`jpg`, `jpeg`, `png`, `webp`. -/
def extAfterLastDot (s : String) : String :=
  ⟨(s.data.reverse.takeWhile (fun ch => ch != '.')).reverse⟩

def allowed_file (filename : String) : Bool :=
  containsChar filename '.' &&
    (let e := pyLower (extAfterLastDot filename)
     e == "jpg" || e == "jpeg" || e == "png" || e == "webp")

/-- The upload loop shared by the two admin product form handlers (lines
425-433 and 461-469): files with an empty filename are skipped silently,
files rejected by `allowed_file` are skipped with a warning flash, and
each remaining file is saved and turned into a `ProductImage` row; a
skipped file never interrupts the rest of the batch. Files are identified
by their filenames. -/
def process_uploads (files : List String) : List String :=
  files.filterMap (fun fn =>
    if fn = "" then none
    else if allowed_file fn then some fn
    else none)

/-- Python `Decimal(s)` restricted to what the admin price fields can
carry: optional surrounding whitespace, an optional sign and a plain
decimal numeral with an optional fractional part (no exponent, and the
non-finite `Infinity`/`NaN` and other special spellings are folded into
`none` together with the parse failures, since for them the subsequent
`quantize` raises and lands in the same `except` branch). The result is
`(numerator, scale)` with value `numerator / 10 ^ scale`. -/
def parseDecimal (s : String) : Option (Int × Nat) :=
  let t := pyStripList s.data
  let body := match t with
    | '-' :: rest => rest
    | '+' :: rest => rest
    | l => l
  let sgn : Int := match t with
    | '-' :: _ => -1
    | _ => 1
  match body.splitOn '.' with
  | [ip, fp] =>
    if ip = [] ∧ fp = [] then none
    else if ip.all Char.isDigit ∧ fp.all Char.isDigit then
      some (sgn * (digitsToNat (ip ++ fp) : Int), fp.length)
    else none
  | [ip] =>
    if ip ≠ [] ∧ ip.all Char.isDigit then some (sgn * (digitsToNat ip : Int), 0)
    else none
  | _ => none

/-- `Decimal(price).quantize(Decimal("0.01"))` as performed by the admin
product handlers, in cents: parse, then round half-to-even at the cent. -/
def parsePrice (s : String) : Option Int :=
  (parseDecimal s).map (fun p => roundHalfEven (p.1 * 100) ((10 : Int) ^ p.2))

/-- What a new product is created from, before the database assigns an
id. -/
structure NewProduct where
  name : String
  description : String
  price : Int
  is_active : Bool
deriving Repr, DecidableEq

/-- The two flash-and-redirect validation exits of the admin product
forms: "Preço inválido." and "Informe o nome.". In both cases the handler
returns before `db.session.commit()`, so no product row is written or
changed. -/
inductive AdminError where
  | invalidPrice
  | missingName
deriving Repr, DecidableEq

/-- The `admin_products_new_post` handler (lines 403-437): strip the name
and description, take the raw price field (`or "0"` when absent or empty),
replace commas by dots and strip, parse it as a `Decimal` quantized to the
cent (flash "Preço inválido." on failure), then require a non-blank name
(flash "Informe o nome." otherwise); on success create the product with
`is_active` set from the checkbox and process the uploaded image batch. -/
def admin_products_new_post
    (name_field description_field price_field is_active_field : Option String)
    (files : List String) : Except AdminError (NewProduct × List String) :=
  let name := pyStrip (pyOr name_field "")
  let description := pyStrip (pyOr description_field "")
  let price_str := pyStrip (pyReplace (pyOr price_field "0") "," ".")
  let is_active := is_active_field = some "on"
  match parsePrice price_str with
  | none => .error .invalidPrice
  | some price_d =>
    if name = "" then .error .missingName
    else .ok ({ name := name, description := description,
                price := price_d, is_active := is_active },
              process_uploads files)

/-- The `admin_products_edit_post` handler (lines 446-473): overwrite the
product's name, description and active flag from the form *without any
validation of the name*, then parse the price exactly as the create
handler does; on parse failure flash "Preço inválido." and return before
committing (the uncommitted attribute writes are discarded with the
request-scoped session, so the stored row is unchanged); on success commit
the updated product and process the uploaded image batch. -/
def admin_products_edit_post (product : Product)
    (name_field description_field price_field is_active_field : Option String)
    (files : List String) : Except AdminError (Product × List String) :=
  let name := pyStrip (pyOr name_field "")
  let description := pyStrip (pyOr description_field "")
  let is_active := is_active_field = some "on"
  let price_str := pyStrip (pyReplace (pyOr price_field "0") "," ".")
  match parsePrice price_str with
  | none => .error .invalidPrice
  | some price_d =>
    .ok ({ product with
            name := name
            description := description
            is_active := is_active
            price := price_d },
         process_uploads files)

/-- Demonstration catalog: one active product mirroring the seeded
"Bolsa Floral" at price 120.00. -/
def demoProduct : Product :=
  { id := 1, name := "Bolsa Floral", description := "", price := 12000, is_active := true }

def demoCatalog : List Product := [demoProduct]

theorem lines_total_eq_sum (ls : List (Product × Int)) :
    lines_total ls = (ls.map (fun e => e.1.price * e.2)).sum := by
  suffices h : ∀ a : Int, ls.foldl (fun acc e => acc + quantizeCents (e.1.price * e.2)) a
      = a + (ls.map (fun e => e.1.price * e.2)).sum by
    simpa [lines_total] using h 0
  induction ls with
  | nil => intro a; simp
  | cons e rest ih =>
    intro a
    rw [List.foldl_cons, ih]
    simp only [quantizeCents_id, List.map_cons, List.sum_cons]
    ring

theorem mem_surviving {catalog : List Product} {pc : List (Int × Int)}
    {p : Product} {q : Int} (h : (p, q) ∈ surviving catalog pc) :
    getProduct catalog (p.id : Int) = some p ∧ p.is_active = true := by
  unfold surviving at h
  rw [List.mem_filterMap] at h
  obtain ⟨e, _, hmatch⟩ := h
  cases hg : getProduct catalog e.1 with
  | none => rw [hg] at hmatch; simp at hmatch
  | some p' =>
    rw [hg] at hmatch
    by_cases ha : p'.is_active
    · simp only [ha, if_true, Option.some.injEq, Prod.mk.injEq] at hmatch
      obtain ⟨hp, _⟩ := hmatch
      have hg' : getProduct catalog e.1 = some p := by rw [← hp]; exact hg
      have hfind : List.find? (fun pr => (pr.id : Int) == e.1) catalog = some p := by
        simpa [getProduct] using hg'
      have hpred := List.find?_some hfind
      have hid : (p.id : Int) = e.1 := by simpa using hpred
      rw [hid]
      refine ⟨hg', ?_⟩
      rw [← hp]
      simpa using ha
    · simp [ha] at hmatch

theorem assocLookup_map_set (c : List (String × Int)) (k : String) (v : Int)
    (h : c.any (fun e => decide (e.1 = k)) = true) :
    assocLookup (c.map (fun e => if e.1 = k then (k, v) else e)) k = some v := by
  induction c with
  | nil => simp at h
  | cons e rest ih =>
    simp only [List.any_cons, Bool.or_eq_true, decide_eq_true_eq] at h
    by_cases hek : e.1 = k
    · simp [assocLookup, hek]
    · have hrest := h.resolve_left hek
      simp only [List.map_cons, if_neg hek]
      simp only [assocLookup, if_neg hek]
      exact ih (by simpa using hrest)

theorem assocLookup_append_single (c : List (String × Int)) (k : String) (v : Int)
    (h : c.any (fun e => decide (e.1 = k)) = false) :
    assocLookup (c ++ [(k, v)]) k = some v := by
  induction c with
  | nil => simp [assocLookup]
  | cons e rest ih =>
    simp only [List.any_cons, Bool.or_eq_false_iff, decide_eq_false_iff_not] at h
    simp only [List.cons_append, assocLookup, if_neg h.1]
    exact ih (by simpa using h.2)

theorem assocLookup_assocSet (c : List (String × Int)) (k : String) (v : Int) :
    assocLookup (assocSet c k v) k = some v := by
  unfold assocSet
  by_cases h : c.any (fun e => decide (e.1 = k)) = true
  · rw [if_pos h]
    exact assocLookup_map_set c k v h
  · rw [if_neg h]
    exact assocLookup_append_single c k v (Bool.eq_false_iff.mpr h)

theorem assocLookup_assocRemove (c : List (String × Int)) (k : String) :
    assocLookup (assocRemove c k) k = none := by
  unfold assocRemove
  induction c with
  | nil => rfl
  | cons e rest ih =>
    by_cases hek : e.1 = k
    · simpa [List.filter_cons, hek] using ih
    · simpa [List.filter_cons, hek, assocLookup] using ih

example : python_int "99" = some 99 := by decide
example : python_int " 7 " = some 7 := by decide
example : python_int "abc" = none := by decide
example : python_int "" = none := by decide
example : cart_update [("5", 3)] [("qty_5", "abc")] = [("5", 1)] := by decide
example : cart_update [("5", 3)] [("qty_5", "0")] = [] := by decide
example : cart_update [("5", 3)] [("qty_5", "150")] = [("5", 99)] := by decide
example : parsePrice "12,34" = none := by decide
example : parsePrice "12.34" = some 1234 := by decide
example : parsePrice (pyStrip (pyReplace "12,34" "," ".")) = some 1234 := by decide
example : parsePrice "-5" = some (-500) := by decide
example : parsePrice "abc" = none := by decide
example : parsePrice ".5" = some 50 := by decide
example : parsePrice "1.005" = some 100 := by decide
example : allowed_file "photo.GIF" = false := by decide
example : allowed_file "photo.JPG" = true := by decide
example : allowed_file "photo" = false := by decide
example : allowed_file "a.b.webp" = true := by decide
example : natToString 12 = "12" := by decide
example :
    admin_products_new_post (some "Bolsa") none (some "-5") none [] =
      .ok ({ name := "Bolsa", description := "", price := -500, is_active := false }, []) := by
  decide
example :
    create_order 10 [{ id := 1, name := "Bolsa Floral", description := "", price := 12000, is_active := true }]
      [("1", 2)] none (some "Ana") (some "11999990000") none none none =
    .ok { customer_name := "Ana", whatsapp := "11999990000", city_state := "", address := "",
          notes := "", payment_method := "pix", amount := 21600, amount_original := 24000,
          status := "Aguardando pagamento",
          items := [{ product_id := 1, product_name_snapshot := "Bolsa Floral",
                      unit_price := 12000, qty := 2 }] } := by
  decide

/-- C1 (counterexample): at price 0.25 and discount percent 50 the code
returns 0.12 — `Decimal.quantize` under Python's default context rounds
the exact value 0.125 half-to-even — while the spec's half-up rounding
would give 0.13, so the claim that the discount rounds half-up is false. -/
theorem pix_discount_rounds_half_even_not_half_up :
    price_with_pix_discount 25 50 = 12 ∧ price_with_discount_spec 25 50 = 13 ∧
    price_with_pix_discount 25 50 ≠ price_with_discount_spec 25 50 := by
  decide

/-- C1 (amended): for every price and every discount percent, the discount
function returns the price unchanged when the percent is ≤ 0, and
otherwise returns the price multiplied by (100 − percent)/100 rounded to
2 decimal places rounding half-to-even at the cent: the result is within
half a cent of the exact product, and an exact half-cent tie is resolved
to the even cent. -/
theorem pix_discount_nearest_cent_ties_even (price pct : Int) :
    (pct ≤ 0 → price_with_pix_discount price pct = price) ∧
    (0 < pct →
      (100 * price_with_pix_discount price pct - price * (100 - pct)).natAbs ≤ 50 ∧
      ((100 * price_with_pix_discount price pct - price * (100 - pct)).natAbs = 50 →
        price_with_pix_discount price pct % 2 = 0)) := by
  unfold price_with_pix_discount
  constructor
  · intro h
    rw [if_pos h]
  · intro h
    rw [if_neg (by omega)]
    generalize price * (100 - pct) = n
    unfold roundHalfEven
    split_ifs <;> omega

/-- C1 witness: the discounted price of 240.00 at 10 percent is within
half a cent of the exact product. -/
theorem pix_discount_nearest_cent_ties_even_witness :
    (0 : Int) < 10 ∧
    (100 * price_with_pix_discount 24000 10 - 24000 * (100 - 10)).natAbs ≤ 50 :=
  ⟨by decide, ((pix_discount_nearest_cent_ties_even 24000 10).2 (by decide)).1⟩

/-- C7 (counterexample): at price 0.01 and discount percent 1 the
discounted price 0.0099 rounds back up to 0.01, so
`price_with_pix_discount 1 1 = 1` although the percent is not 0: the
"equality iff D = 0" part of the claim fails. -/
theorem pix_discount_equality_without_zero_percent :
    ¬ (price_with_pix_discount 1 1 ≤ 1 ∧
       (price_with_pix_discount 1 1 = 1 ↔ (1 : Int) = 0)) := by
  decide

/-- C7 (amended): for every non-negative price P and discount percent D in
[0, 100], `price_with_pix_discount P D ≤ P`, with equality whenever D = 0
(equality can also occur for D > 0 when the discount is below half a
cent, so the converse direction of the original claim is dropped). -/
theorem pix_discount_le_of_nonneg (price pct : Int) (hp : 0 ≤ price)
    (h0 : 0 ≤ pct) (h100 : pct ≤ 100) :
    price_with_pix_discount price pct ≤ price ∧
    (pct = 0 → price_with_pix_discount price pct = price) := by
  constructor
  · unfold price_with_pix_discount
    split_ifs with h
    · exact le_refl price
    · apply roundHalfEven_100_le
      have hm : price * (100 - pct) ≤ price * 100 :=
        mul_le_mul_of_nonneg_left (by omega) hp
      rw [mul_comm 100 price]
      exact hm
  · intro h
    unfold price_with_pix_discount
    rw [if_pos (by omega)]

/-- C7 witness: a 10 percent discount on 240.00 does not exceed 240.00. -/
theorem pix_discount_le_of_nonneg_witness :
    price_with_pix_discount 24000 10 ≤ 24000 :=
  (pix_discount_le_of_nonneg 24000 10 (by decide) (by decide) (by decide)).1

/-- C5 (counterexample): an unparsable quantity in a cart-update request
does not remove the line as the claim states: `int("abc")` raises, the
handler substitutes 1, and the line for product "5" survives with
quantity 1. -/
theorem cart_update_unparsable_sets_one :
    python_int "abc" = none ∧
    assocLookup (cart_update [("5", 3)] [("qty_5", "abc")]) "5" = some 1 := by
  decide

/-- C5 (amended): for every entry in a cart-update request, a quantity
that parses to a non-positive integer removes that line from the cart; an
unparsable quantity is substituted by 1, so the line is kept with
quantity 1; and a positive parsed quantity is clamped to [1, 99] and
replaces the prior value for that product. -/
theorem cart_update_entry_semantics (c : List (String × Int)) (pid val : String)
    (hpid : pyReplace ("qty_" ++ pid) "qty_" "" = pid) :
    (∀ q, python_int val = some q → q ≤ 0 →
      assocLookup (cart_update c [("qty_" ++ pid, val)]) pid = none) ∧
    (∀ q, python_int val = some q → 0 < q →
      assocLookup (cart_update c [("qty_" ++ pid, val)]) pid = some (max 1 (min q 99))) ∧
    (python_int val = none →
      assocLookup (cart_update c [("qty_" ++ pid, val)]) pid = some 1) := by
  have hqd : "qty_".data = ['q', 't', 'y', '_'] := by decide
  have hd : ("qty_" ++ pid).data = 'q' :: 't' :: 'y' :: '_' :: pid.data := by
    rw [String.data_append, hqd]
    rfl
  have hpre : "qty_".data.isPrefixOf ("qty_" ++ pid).data = true := by
    rw [hqd, hd]
    simp [List.isPrefixOf]
  unfold cart_update
  simp only [List.foldl_cons, List.foldl_nil, hpre, Bool.not_true, Bool.false_eq_true,
    if_false, hpid]
  refine ⟨?_, ?_, ?_⟩
  · intro q hq hle
    rw [hq]
    simp only [Option.getD_some]
    rw [if_pos hle]
    exact assocLookup_assocRemove c pid
  · intro q hq hpos
    rw [hq]
    simp only [Option.getD_some]
    rw [if_neg (by omega)]
    exact assocLookup_assocSet c pid (max 1 (min q 99))
  · intro hnone
    rw [hnone]
    simp only [Option.getD_none]
    rw [if_neg (by omega)]
    have h1 : max 1 (min (1 : Int) 99) = 1 := by decide
    rw [h1]
    exact assocLookup_assocSet c pid 1

/-- C5 witness: a quantity of "0" removes the line for product "5". -/
theorem cart_update_entry_semantics_witness :
    assocLookup (cart_update [("5", 3)] [("qty_" ++ "5", "0")]) "5" = none :=
  (cart_update_entry_semantics [("5", 3)] "5" "0" (by decide)).1 0 (by decide) (by decide)

/-- C8: `cart_add` clamps the submitted quantity to [1, 99] and only then
adds it onto the existing quantity for that product; the accumulated sum
is stored without being clamped again, so the stored quantity can exceed
99 (see the witness, where 99 + 99 = 198 is stored). -/
theorem cart_add_clamps_before_accumulate (catalog : List Product)
    (c : List (String × Int)) (pid : Nat) (p : Product) (s : String) (q : Int)
    (hp : getProduct catalog (pid : Int) = some p) (ha : p.is_active = true)
    (hs : s ≠ "") (hq : python_int s = some q) :
    cart_add catalog c pid (some s) =
      .ok (assocSet c (natToString pid)
        (((assocLookup c (natToString pid)).getD 0) + max 1 (min q 99))) := by
  unfold cart_add
  have hpy : pyOr (some s) "1" = s := by simp [pyOr, hs]
  simp only [hp, ha, Bool.not_true, Bool.false_eq_true, if_false, hpy, hq]

/-- C8 witness: adding quantity "99" to a cart already holding 99 of the
product stores 198, above the per-submission cap. -/
theorem cart_add_clamps_before_accumulate_witness :
    cart_add demoCatalog [("1", 99)] 1 (some "99") = .ok [("1", 198)] := by
  have h := cart_add_clamps_before_accumulate demoCatalog [("1", 99)] 1 demoProduct
    "99" 99 (by decide) (by decide) (by decide) (by decide)
  exact h.trans (by decide)

/-- C9: an uploaded file is accepted exactly when its filename contains a
dot and the part after the last dot, lower-cased, is jpg, jpeg, png or
webp; a rejected file (such as "photo.GIF") is skipped while the rest of
the batch is processed unchanged. -/
theorem allowed_file_extension_and_batch (pre post : List String) (fn : String) :
    (allowed_file fn = true ↔
      (containsChar fn '.' = true ∧
        (pyLower (extAfterLastDot fn) = "jpg" ∨ pyLower (extAfterLastDot fn) = "jpeg" ∨
         pyLower (extAfterLastDot fn) = "png" ∨ pyLower (extAfterLastDot fn) = "webp"))) ∧
    (fn ≠ "" → allowed_file fn = false →
      process_uploads (pre ++ fn :: post) = process_uploads (pre ++ post)) ∧
    allowed_file "photo.GIF" = false := by
  refine ⟨?_, ?_, by decide⟩
  · unfold allowed_file
    simp only [Bool.and_eq_true, Bool.or_eq_true, beq_iff_eq, or_assoc]
  · intro hne hall
    unfold process_uploads
    rw [List.filterMap_append, List.filterMap_append, List.filterMap_cons]
    simp [hne, hall]

/-- C9 witness: "photo.GIF" is dropped from a batch while "a.jpg" and
"b.png" are still processed. -/
theorem allowed_file_extension_and_batch_witness :
    process_uploads ["a.jpg", "photo.GIF", "b.png"] = process_uploads ["a.jpg", "b.png"] := by
  have h := allowed_file_extension_and_batch ["a.jpg"] ["b.png"] "photo.GIF"
  exact h.2.1 (by decide) h.2.2

/-- C10: `cart_add`'s quantity parsing is partial: an absent or empty
`qty` form value defaults to "1", parses, and is clamped, but a non-empty
non-integer value (here "2x") makes `int(...)` raise before any clamping,
failing the request — unlike `cart_update`, which substitutes 1 for the
same unparsable value and keeps the line. -/
theorem cart_add_qty_parse_partial (catalog : List Product)
    (c : List (String × Int)) (pid : Nat) (p : Product)
    (hp : getProduct catalog (pid : Int) = some p) (ha : p.is_active = true) :
    cart_add catalog c pid none =
      .ok (assocSet c (natToString pid) (((assocLookup c (natToString pid)).getD 0) + 1)) ∧
    cart_add catalog c pid (some "") = cart_add catalog c pid none ∧
    cart_add catalog c pid (some "2x") = .error .qtyError ∧
    assocLookup (cart_update c [("qty_5", "2x")]) "5" = some 1 := by
  refine ⟨?_, rfl, ?_, ?_⟩
  · unfold cart_add
    have h1 : python_int (pyOr none "1") = some 1 := by decide
    simp only [hp, ha, Bool.not_true, Bool.false_eq_true, if_false, h1]
    have h2 : max 1 (min (1 : Int) 99) = 1 := by decide
    rw [h2]
  · unfold cart_add
    have h1 : python_int (pyOr (some "2x") "1") = none := by decide
    simp only [hp, ha, Bool.not_true, Bool.false_eq_true, if_false, h1]
  · unfold cart_update
    simp only [List.foldl_cons, List.foldl_nil]
    have hpre : "qty_".data.isPrefixOf "qty_5".data = true := by decide
    have hrep : pyReplace "qty_5" "qty_" "" = "5" := by decide
    have hnone : python_int "2x" = none := by decide
    simp only [hpre, Bool.not_true, Bool.false_eq_true, if_false, hrep, hnone,
      Option.getD_none]
    rw [if_neg (by omega)]
    have h1 : max 1 (min (1 : Int) 99) = 1 := by decide
    rw [h1]
    exact assocLookup_assocSet c "5" 1

/-- C10 witness: with an in-catalog active product, an absent quantity
adds 1 while the unparsable "2x" fails the request. -/
theorem cart_add_qty_parse_partial_witness :
    cart_add demoCatalog [] 1 none = .ok [("1", 1)] ∧
    cart_add demoCatalog [] 1 (some "2x") = .error .qtyError := by
  have h := cart_add_qty_parse_partial demoCatalog [] 1 demoProduct (by decide) (by decide)
  exact ⟨h.1.trans (by decide), h.2.2.1⟩

/-- C2: for every cart state whose keys parse, the cart-view total equals
the sum of `product.price * qty` over the surviving lines with the
rounding to 2 decimals applied once to the sum: the per-line quantization
performed by the code coincides with summing first and rounding once,
because each line's `price * qty` is already an exact number of cents. -/
theorem cart_view_total_rounds_once (catalog : List Product) (c : List (String × Int))
    (pc : List (Int × Int)) (h : parse_cart c = some pc) :
    cart_view_total catalog c =
      some (quantizeCents (((surviving catalog pc).map (fun e => e.1.price * e.2)).sum)) := by
  unfold cart_view_total
  rw [h]
  simp only [Option.map_some']
  rw [lines_total_eq_sum, quantizeCents_id]

/-- C2 witness: a cart holding two units of the demo product totals
240.00. -/
theorem cart_view_total_rounds_once_witness :
    cart_view_total demoCatalog [("1", 2)] = some 24000 := by
  have h := cart_view_total_rounds_once demoCatalog [("1", 2)] [(1, 2)] (by decide)
  exact h.trans (by decide)

/-- C3: for every successfully created order, `amount_original` equals the
sum of `unit_price * qty` over its items, `amount` equals that sum reduced
by the configured pix discount exactly when the payment method is "pix",
and every item snapshots the name and price of the catalog product it
references (which was active at order time). -/
theorem create_order_amount_invariants (pct : Int) (catalog : List Product)
    (c : List (String × Int)) (pmf cnf waf csf adf ntf : Option String) (o : OrderRec)
    (h : create_order pct catalog c pmf cnf waf csf adf ntf = .ok o) :
    o.amount_original = itemsSum o.items ∧
    o.amount = (if o.payment_method = "pix"
                then price_with_pix_discount (itemsSum o.items) pct
                else itemsSum o.items) ∧
    ∀ it ∈ o.items, ∃ p, getProduct catalog (it.product_id : Int) = some p ∧
      p.is_active = true ∧ it.product_name_snapshot = p.name ∧ it.unit_price = p.price := by
  unfold create_order at h
  simp only [] at h
  split at h
  · simp at h
  · split at h
    · simp at h
    · split at h
      · simp at h
      · rename_i pc hpc
        split at h
        · simp at h
        · injection h with h'
          subst h'
          have hsum : itemsSum ((surviving catalog pc).map (fun e =>
              ({ product_id := e.1.id, product_name_snapshot := e.1.name,
                 unit_price := e.1.price, qty := e.2 } : OrderItemRec))) =
              lines_total (surviving catalog pc) := by
            unfold itemsSum
            rw [List.map_map, lines_total_eq_sum]
            rfl
          refine ⟨?_, ?_, ?_⟩
          · dsimp only
            rw [hsum]
          · dsimp only
            rw [hsum]
          · intro it hit
            dsimp only at hit
            obtain ⟨⟨p, qv⟩, hmem, rfl⟩ := List.mem_map.mp hit
            obtain ⟨hg, ha⟩ := mem_surviving hmem
            exact ⟨p, hg, ha, rfl, rfl⟩

/-- The order produced by checking out two units of the demo product by
pix under a 10 percent discount. -/
def demoOrder : OrderRec :=
  { customer_name := "Ana", whatsapp := "11999990000", city_state := "", address := "",
    notes := "", payment_method := "pix", amount := 21600, amount_original := 24000,
    status := "Aguardando pagamento",
    items := [{ product_id := 1, product_name_snapshot := "Bolsa Floral",
                unit_price := 12000, qty := 2 }] }

/-- C3 witness: the end-to-end scenario of the spec — one line of two
units at 120.00 paid by pix with a 10 percent discount — satisfies the
invariants: `amount_original` 240.00, `amount` 216.00, one snapshotted
item. -/
theorem create_order_amount_invariants_witness :
    demoOrder.amount_original = itemsSum demoOrder.items ∧
    demoOrder.amount = (if demoOrder.payment_method = "pix"
                        then price_with_pix_discount (itemsSum demoOrder.items) 10
                        else itemsSum demoOrder.items) ∧
    ∀ it ∈ demoOrder.items, ∃ p, getProduct demoCatalog (it.product_id : Int) = some p ∧
      p.is_active = true ∧ it.product_name_snapshot = p.name ∧ it.unit_price = p.price :=
  create_order_amount_invariants 10 demoCatalog [("1", 2)] none (some "Ana")
    (some "11999990000") none none none demoOrder (by decide)

/-- C4: checkout fails, creating no order row and mutating no state,
whenever the cart is empty after dropping stale or inactive products, or
the stripped customer name or WhatsApp contact is blank. -/
theorem create_order_rejects_invalid (pct : Int) (catalog : List Product)
    (c : List (String × Int)) (pmf cnf waf csf adf ntf : Option String)
    (pc : List (Int × Int)) (hpc : parse_cart c = some pc)
    (hbad : surviving catalog pc = [] ∨ pyStrip (pyOr cnf "") = "" ∨
      pyStrip (pyOr waf "") = "") :
    ∃ e, create_order pct catalog c pmf cnf waf csf adf ntf = .error e := by
  unfold create_order
  by_cases h1 : c.isEmpty
  · exact ⟨.emptyCart, by simp [h1]⟩
  · have h1' : c.isEmpty = false := by simpa using h1
    by_cases h2 : pyStrip (pyOr cnf "") = "" ∨ pyStrip (pyOr waf "") = ""
    · exact ⟨.missingFields, by simp [h1', h2]⟩
    · have hsurv : surviving catalog pc = [] := hbad.resolve_right h2
      exact ⟨.emptyCart, by simp [h1', h2, hpc, hsurv]⟩

/-- C4 witness: checking out an empty cart is rejected. -/
theorem create_order_rejects_invalid_witness :
    ∃ e, create_order 10 demoCatalog [] none (some "Ana") (some "11999990000")
      none none none = .error e :=
  create_order_rejects_invalid 10 demoCatalog [] none (some "Ana") (some "11999990000")
    none none none [] (by decide) (Or.inl (by decide))

/-- C6 (counterexample): the claim that price must parse as a
*non-negative* value and that *both* handlers validate the name is false:
product creation accepts the negative price "-5" (stored as -5.00), and
product editing accepts a blank name (the stripped " " is stored). -/
theorem admin_accepts_negative_price_and_blank_edit_name :
    admin_products_new_post (some "Bolsa") none (some "-5") none [] =
      .ok ({ name := "Bolsa", description := "", price := -500, is_active := false }, []) ∧
    ((-500 : Int) < 0) ∧
    admin_products_edit_post demoProduct (some " ") none (some "10") none [] =
      .ok ({ id := 1, name := "", description := "", price := 1000, is_active := false }, []) := by
  decide

/-- C6 (amended): product creation validates that the name is non-blank
and that the price string (with commas turned into dots) parses as a
signed decimal numeral — a negative price is accepted; product update
validates only the price and not the name. Exactly in those failure cases
the operation fails with a validation error and no product row is written
or changed. -/
theorem admin_price_name_validation
    (nf df pf af : Option String) (files : List String) (product : Product) :
    ((∃ e, admin_products_new_post nf df pf af files = .error e) ↔
      (parsePrice (pyStrip (pyReplace (pyOr pf "0") "," ".")) = none ∨
        pyStrip (pyOr nf "") = "")) ∧
    ((∃ e, admin_products_edit_post product nf df pf af files = .error e) ↔
      parsePrice (pyStrip (pyReplace (pyOr pf "0") "," ".")) = none) := by
  unfold admin_products_new_post admin_products_edit_post
  constructor
  · cases hp : parsePrice (pyStrip (pyReplace (pyOr pf "0") "," ".")) with
    | none => simp [hp]
    | some d =>
      by_cases hn : pyStrip (pyOr nf "") = ""
      · simp [hp, hn]
      · simp [hp, hn]
  · cases hp : parsePrice (pyStrip (pyReplace (pyOr pf "0") "," ".")) with
    | none => simp [hp]
    | some d => simp [hp]
